import Mathlib

/-!
Verification of the database-provisioning and session-lifecycle core of the
repository (package `framework`: `DBExists`, `CreateDB`, `CreateSession`,
`ConnectDB`).

The Go functions talk to an external database driver (`upper/db`).  We embed
them shallowly: the driver is an oracle (`World`) that decides the outcome of
every external call (opening a network session, running the catalog query,
executing DDL), and every external call is recorded in an event trace so that
resource-lifecycle properties (which sessions were opened, which were closed,
what SQL was issued and on which session) are stated about the trace.

Sessions are identified by the index of the open call that produced them;
the settings they were opened with are kept in the session value so that
"scoped" (database name included) versus "bootstrap" (no database name) is
observable on the returned session.
-/

namespace Framework

/-- Mirrors Go `DBConfig`: host, port, user, password, database. -/
structure DBConfig where
  host : String
  port : Nat
  user : String
  password : String
  database : String
deriving DecidableEq, Repr

/-- Mirrors the adapter `ConnectionURL` values built by the source: the code
only ever sets `Host`, `User`, `Password` and (conditionally) `Database`;
a field left unset keeps Go's zero value `""`. -/
structure ConnectionURL where
  host : String
  user : String
  password : String
  database : String := ""
deriving DecidableEq, Repr

/-- A live driver session: the index of the open call that produced it,
the dialect it was opened for, and the settings it was opened with. -/
structure Session where
  id : Nat
  dialect : String
  settings : ConnectionURL
deriving DecidableEq, Repr

/-- External-driver calls made by the code, recorded in order. -/
inductive Event where
  | openSess (id : Nat) (dialect : String) (settings : ConnectionURL)
  | close (id : Nat)
  | query (id : Nat) (sql : String)
  | exec (id : Nat) (sql : String)
deriving DecidableEq, Repr

/-- The threaded driver state: how many open calls were attempted so far
(used to index the oracle and to number sessions) and the event trace. -/
structure St where
  opens : Nat
  events : List Event
deriving DecidableEq, Repr

/-- The empty starting state. -/
def st0 : St := { opens := 0, events := [] }

/-- The driver/server oracle: outcome of the k-th open attempt (`none` =
success), outcome of running the existence-check query, the server's catalog
of existing database names, and the outcome of executing the CREATE DATABASE
statement.  `some s` is the underlying driver error text. -/
structure World where
  openErr : Nat → Option String
  queryErr : Option String
  catalog : List String
  execErr : Option String

/-- The error values the Go code can return: the two sentinel errors
`ErrUnknownDialect` and `ErrNoSuchDatabase`, the wrapped connection error
("failed to connect: %w"), the wrapped probe error
("failed to check db existence: %w"), and a driver error returned unwrapped
by `CreateDB` from `Exec`. -/
inductive DBError where
  | unknownDialect
  | noSuchDatabase
  | connectFailed (cause : String)
  | probeFailed (cause : String)
  | execError (cause : String)
deriving DecidableEq, Repr

/-- Equality on `ConnectDB`/`CreateSession` results is decidable, so that
concrete runs can be checked by evaluation. -/
instance : DecidableEq (Except DBError Session)
  | Except.ok a, Except.ok b =>
      if h : a = b then isTrue (by rw [h])
      else isFalse (fun hh => h (Except.ok.inj hh))
  | Except.error a, Except.error b =>
      if h : a = b then isTrue (by rw [h])
      else isFalse (fun hh => h (Except.error.inj hh))
  | Except.ok _, Except.error _ => isFalse (fun hh => Except.noConfusion hh)
  | Except.error _, Except.ok _ => isFalse (fun hh => Except.noConfusion hh)

/-- Model of `postgresql.Open` / `mysql.Open`: the oracle decides success.
On success a fresh session (numbered by the attempt index) is returned and
recorded; on failure the driver returns a nil session, so nothing is
recorded in the trace. -/
def openSession (w : World) (st : St) (dialect : String)
    (settings : ConnectionURL) : Except String Session × St :=
  match w.openErr st.opens with
  | some e => (Except.error e, { st with opens := st.opens + 1 })
  | none =>
      let sess : Session := { id := st.opens, dialect := dialect, settings := settings }
      (Except.ok sess,
       { opens := st.opens + 1,
         events := st.events ++ [Event.openSess sess.id dialect settings] })

/-- Record a `Close` call on a session (Go `sess.Close()`), including the
deferred close-if-non-nil in `DBExists` and `CreateDB`. -/
def closeSess (st : St) (sess : Session) : St :=
  { st with events := st.events ++ [Event.close sess.id] }

/-- Record a `QueryRow` call. -/
def recordQuery (st : St) (sess : Session) (sql : String) : St :=
  { st with events := st.events ++ [Event.query sess.id sql] }

/-- Record an `Exec` call. -/
def recordExec (st : St) (sess : Session) (sql : String) : St :=
  { st with events := st.events ++ [Event.exec sess.id sql] }

/-- The single-quote character, for building the SQL literals exactly as the
source concatenates them. -/
def sq : String := String.singleton (Char.ofNat 39)

/-- The Postgres catalog query built by `DBExists`:
`SELECT datname FROM pg_catalog.pg_database WHERE lower(datname) = lower(<q><db><q>)`
with `<q>` the single-quote character. -/
def pgProbeSql (cfg : DBConfig) : String :=
  "SELECT datname FROM pg_catalog.pg_database WHERE lower(datname) = lower(" ++
    sq ++ cfg.database ++ sq ++ ")"

/-- The MySQL catalog query built by `DBExists`:
`SELECT SCHEMA_NAME FROM INFORMATION_SCHEMA.SCHEMATA WHERE SCHEMA_NAME = <q><db><q>`. -/
def mysqlProbeSql (cfg : DBConfig) : String :=
  "SELECT SCHEMA_NAME FROM INFORMATION_SCHEMA.SCHEMATA WHERE SCHEMA_NAME = " ++
    sq ++ cfg.database ++ sq

/-- ASCII lower-casing of one character, modelling SQL `lower()`. -/
def lowerChar (c : Char) : Char :=
  if 65 ≤ c.toNat ∧ c.toNat ≤ 90 then Char.ofNat (c.toNat + 32) else c

/-- ASCII lower-casing of a string, modelling SQL `lower()`. -/
def lowerStr (s : String) : String :=
  ⟨s.data.map lowerChar⟩

/-- Server semantics of the Postgres catalog query followed by `row.Scan`:
the query matches rows with `lower(datname) = lower(<db>)`; `QueryRow` takes
the first such row and `Scan` writes the stored name into `database`, leaving
the Go zero value `""` when there is no matching row (the `Scan` error is
discarded by the source). -/
def pgScan (catalog : List String) (name : String) : String :=
  (catalog.find? (fun d => lowerStr d = lowerStr name)).getD ""

/-- Server semantics of the MySQL catalog query followed by `row.Scan`:
the query matches rows with `SCHEMA_NAME = <db>` (compared as stored);
`""` when there is no matching row. -/
def mysqlScan (catalog : List String) (name : String) : String :=
  (catalog.find? (fun d => d = name)).getD ""

/-- Go `DBExists(dialect, dbConfig) (bool, error)`.

Opens its own session with host/user/password only, runs the dialect's
catalog query on it, `Scan`s the resulting row into `database`, and returns
`(false, ErrNoSuchDatabase)` when `database != dbConfig.Database`, else
`(true, nil)`.  The deferred close runs on every return where the session is
non-nil.  Unknown dialects fall through to `(false, ErrUnknownDialect)`. -/
def DBExists (w : World) (st : St) (dialect : String) (cfg : DBConfig) :
    (Bool × Option DBError) × St :=
  if dialect = "postgres" then
    let settings : ConnectionURL :=
      { host := cfg.host, user := cfg.user, password := cfg.password }
    match openSession w st "postgres" settings with
    | (Except.error e, st1) => ((false, some (DBError.connectFailed e)), st1)
    | (Except.ok sess, st1) =>
        let st2 := recordQuery st1 sess (pgProbeSql cfg)
        match w.queryErr with
        | some e => ((false, some (DBError.probeFailed e)), closeSess st2 sess)
        | none =>
            let database := pgScan w.catalog cfg.database
            if database ≠ cfg.database then
              ((false, some DBError.noSuchDatabase), closeSess st2 sess)
            else
              ((true, none), closeSess st2 sess)
  else if dialect = "mysql" then
    let settings : ConnectionURL :=
      { host := cfg.host, user := cfg.user, password := cfg.password }
    match openSession w st "mysql" settings with
    | (Except.error e, st1) => ((false, some (DBError.connectFailed e)), st1)
    | (Except.ok sess, st1) =>
        let st2 := recordQuery st1 sess (mysqlProbeSql cfg)
        match w.queryErr with
        | some e => ((false, some (DBError.probeFailed e)), closeSess st2 sess)
        | none =>
            let database := mysqlScan w.catalog cfg.database
            if database ≠ cfg.database then
              ((false, some DBError.noSuchDatabase), closeSess st2 sess)
            else
              ((true, none), closeSess st2 sess)
  else
    ((false, some DBError.unknownDialect), st)

/-- Go `CreateSession(dialect, dbConfig, ignoreDb) (DBSession, error)`.

Builds the adapter settings with host/user/password, adds
`settings.Database = dbConfig.Database` only when `!ignoreDb`, opens the
session, and wraps any open failure as "failed to connect".  Unknown
dialects return `ErrUnknownDialect`. -/
def CreateSession (w : World) (st : St) (dialect : String) (cfg : DBConfig)
    (ignoreDb : Bool) : Except DBError Session × St :=
  if dialect = "postgres" then
    let settings : ConnectionURL :=
      { host := cfg.host, user := cfg.user, password := cfg.password,
        database := if ignoreDb then "" else cfg.database }
    match openSession w st "postgres" settings with
    | (Except.error e, st1) => (Except.error (DBError.connectFailed e), st1)
    | (Except.ok sess, st1) => (Except.ok sess, st1)
  else if dialect = "mysql" then
    let settings : ConnectionURL :=
      { host := cfg.host, user := cfg.user, password := cfg.password,
        database := if ignoreDb then "" else cfg.database }
    match openSession w st "mysql" settings with
    | (Except.error e, st1) => (Except.error (DBError.connectFailed e), st1)
    | (Except.ok sess, st1) => (Except.ok sess, st1)
  else
    (Except.error DBError.unknownDialect, st)

/-- The DDL text `CreateDB` issues on Postgres:
`CREATE DATABASE <db> WITH OWNER <user>`. -/
def pgCreateSql (cfg : DBConfig) : String :=
  "CREATE DATABASE " ++ cfg.database ++ " WITH OWNER " ++ cfg.user

/-- The DDL text `CreateDB` issues on MySQL:
`CREATE DATABASE IF NOT EXISTS <db>`. -/
def mysqlCreateSql (cfg : DBConfig) : String :=
  "CREATE DATABASE IF NOT EXISTS " ++ cfg.database

/-- Go `CreateDB(dialect, dbConfig) error`.

Opens its own unscoped session via `CreateSession(dialect, cfg, true)`,
executes the dialect's CREATE DATABASE statement, returns the `Exec` error
unwrapped on failure and `nil` on success; the deferred close runs on every
return where the session is non-nil.  A nil `Result` with nil error would
fall through to the final `return nil`. -/
def CreateDB (w : World) (st : St) (dialect : String) (cfg : DBConfig) :
    Option DBError × St :=
  match CreateSession w st dialect cfg true with
  | (Except.error e, st1) => (some e, st1)
  | (Except.ok sess, st1) =>
      if dialect = "postgres" then
        let st2 := recordExec st1 sess (pgCreateSql cfg)
        match w.execErr with
        | some e => (some (DBError.execError e), closeSess st2 sess)
        | none => (none, closeSess st2 sess)
      else if dialect = "mysql" then
        let st2 := recordExec st1 sess (mysqlCreateSql cfg)
        match w.execErr with
        | some e => (some (DBError.execError e), closeSess st2 sess)
        | none => (none, closeSess st2 sess)
      else
        (none, closeSess st1 sess)

/-- Go `ConnectDB(dialect, dbConfig) (DBSession, error)`.

Opens a bootstrap session via `CreateSession(dialect, cfg, true)`; calls
`DBExists` discarding its error (`exists, _ :=`); when `!exists` calls
`CreateDB` and on success falls through to `return sess, nil` (the bootstrap
session); when `exists` closes the bootstrap session, reopens with
`CreateSession(dialect, cfg, false)` and returns that scoped session. -/
def ConnectDB (w : World) (st : St) (dialect : String) (cfg : DBConfig) :
    Except DBError Session × St :=
  match CreateSession w st dialect cfg true with
  | (Except.error e, st1) => (Except.error e, st1)
  | (Except.ok sess, st1) =>
      match DBExists w st1 dialect cfg with
      | ((dbexists, _), st2) =>
          if !dbexists then
            match CreateDB w st2 dialect cfg with
            | (some e, st3) => (Except.error e, st3)
            | (none, st3) => (Except.ok sess, st3)
          else
            let st3 := closeSess st2 sess
            match CreateSession w st3 dialect cfg false with
            | (Except.error e, st4) => (Except.error e, st4)
            | (Except.ok sess2, st4) => (Except.ok sess2, st4)

/-- Ids of sessions opened in a trace, in order. -/
def openedIds : List Event → List Nat
  | [] => []
  | Event.openSess i _ _ :: rest => i :: openedIds rest
  | _ :: rest => openedIds rest

/-- Ids of sessions closed in a trace, in order (with multiplicity). -/
def closedIds : List Event → List Nat
  | [] => []
  | Event.close i :: rest => i :: closedIds rest
  | _ :: rest => closedIds rest

/-- Session ids on which a query was run, in order. -/
def queryIds : List Event → List Nat
  | [] => []
  | Event.query i _ :: rest => i :: queryIds rest
  | _ :: rest => queryIds rest

/-- The SQL texts passed to `Exec`, in order. -/
def execSqls : List Event → List String
  | [] => []
  | Event.exec _ s :: rest => s :: execSqls rest
  | _ :: rest => execSqls rest

/-- How many times session `i` is closed in a trace. -/
def closeCount (evs : List Event) (i : Nat) : Nat :=
  match evs with
  | [] => 0
  | Event.close j :: rest => (if j = i then 1 else 0) + closeCount rest i
  | _ :: rest => closeCount rest i

end Framework
namespace Framework

/-- Compact constructor for `ConnectionURL`, for theorem statements. -/
def mkURL (h u p d : String) : ConnectionURL :=
  { host := h, user := u, password := p, database := d }

/-- Compact constructor for `Session`, for theorem statements. -/
def mkSess (i : Nat) (dial : String) (s : ConnectionURL) : Session :=
  { id := i, dialect := dial, settings := s }

/-- Oracle where every driver call succeeds and the catalog is empty. -/
def wAllOk : World :=
  { openErr := fun _ => none, queryErr := none, catalog := [], execErr := none }

/-- Oracle where every driver call succeeds and the catalog holds `app`. -/
def wCatApp : World :=
  { openErr := fun _ => none, queryErr := none, catalog := ["app"], execErr := none }

/-- Oracle where the catalog holds `app` but the existence query fails. -/
def wProbeBoom : World :=
  { openErr := fun _ => none, queryErr := some "boom", catalog := ["app"], execErr := none }

/-- Oracle where the CREATE DATABASE statement fails. -/
def wExecDup : World :=
  { openErr := fun _ => none, queryErr := none, catalog := [], execErr := some "dup" }

/-- Oracle whose catalog holds the lower-case name `mydb`. -/
def wCaseFold : World :=
  { openErr := fun _ => none, queryErr := none, catalog := ["mydb"], execErr := none }

/-- A sample configuration targeting database `app`. -/
def cfgApp : DBConfig :=
  { host := "h", port := 5432, user := "u", password := "p", database := "app" }

/-- A sample configuration probing the mixed-case name `MyDb`. -/
def cfgMyDb : DBConfig :=
  { host := "h", port := 5432, user := "u", password := "p", database := "MyDb" }

/-- C4 counterexample: with catalog entry `mydb`, probing `MyDb` on Postgres
returns `(false, ErrNoSuchDatabase)`, not `true`: the SQL query matches
case-insensitively but the scanned name is then compared case-sensitively. -/
theorem dbExists_postgres_not_cross_case :
    (DBExists wCaseFold st0 "postgres" cfgMyDb).1 =
      (false, some DBError.noSuchDatabase) ∧
    (DBExists wCaseFold st0 "postgres" cfgMyDb).1 ≠ (true, none) := by
  decide

/-- C4 amended: `DBExists` returns `true` only on an exact, case-sensitive
match.  A probe differing only in case from the stored entry returns
`(false, ErrNoSuchDatabase)` on Postgres (the catalog query finds the row
case-insensitively, but the scanned stored name is compared case-sensitively
to the probe) and on MySQL (whose query matches as stored). -/
theorem dbExists_exact_match_only (w : World) (cfg : DBConfig) (stored : String)
    (h0 : w.openErr 0 = none) (hq : w.queryErr = none)
    (hcat : w.catalog = [stored]) (hlow : lowerStr stored = lowerStr cfg.database)
    (hne : stored ≠ cfg.database) (hne2 : cfg.database ≠ "") :
    (DBExists w st0 "postgres" cfg).1 = (false, some DBError.noSuchDatabase) ∧
    (DBExists w st0 "mysql" cfg).1 = (false, some DBError.noSuchDatabase) ∧
    ((DBExists w st0 "postgres" cfg).1 = (true, none) ↔
      pgScan w.catalog cfg.database = cfg.database) := by
  refine ⟨?_, ?_, ?_⟩
  · simp [DBExists, openSession, st0, h0, hq, pgScan, hcat, hlow, hne, recordQuery, closeSess]
  · simp [DBExists, openSession, st0, h0, hq, mysqlScan, hcat, hne, recordQuery, closeSess,
      Ne.symm hne2]
  · by_cases hs : pgScan w.catalog cfg.database = cfg.database <;>
      simp [DBExists, openSession, st0, h0, hq, recordQuery, closeSess, hs]

/-- C4 witness: the amended theorem at catalog `[mydb]`, probe `MyDb`. -/
theorem dbExists_exact_match_only_witness :
    (DBExists wCaseFold st0 "postgres" cfgMyDb).1 =
      (false, some DBError.noSuchDatabase) ∧
    (DBExists wCaseFold st0 "mysql" cfgMyDb).1 =
      (false, some DBError.noSuchDatabase) ∧
    ((DBExists wCaseFold st0 "postgres" cfgMyDb).1 = (true, none) ↔
      pgScan wCaseFold.catalog cfgMyDb.database = cfgMyDb.database) :=
  dbExists_exact_match_only wCaseFold cfgMyDb "mydb" rfl rfl rfl (by decide)
    (by decide) (by decide)

end Framework
namespace Framework

/-- C5 counterexample: with an empty catalog the probe query succeeds and
finds no row, yet `DBExists` returns `(false, ErrNoSuchDatabase)` — an
error — not `(false, nil)` as claimed, on both dialects. -/
theorem dbExists_no_row_returns_error :
    (DBExists wAllOk st0 "postgres" cfgApp).1 =
      (false, some DBError.noSuchDatabase) ∧
    (DBExists wAllOk st0 "mysql" cfgApp).1 =
      (false, some DBError.noSuchDatabase) ∧
    (DBExists wAllOk st0 "postgres" cfgApp).1 ≠ (false, none) := by
  decide

/-- C5 amended: when the catalog query executes successfully and returns no
matching row, `DBExists` returns `false` together with the sentinel error
`ErrNoSuchDatabase` (not a nil error); a failure to execute the query itself
yields the distinct wrapped probe error (`failed to check db existence`). -/
theorem dbExists_no_row_sentinel (w : World) (cfg : DBConfig) (e : String)
    (h0 : w.openErr 0 = none) (hq : w.queryErr = none)
    (hpg : pgScan w.catalog cfg.database = "")
    (hmy : mysqlScan w.catalog cfg.database = "")
    (hne : cfg.database ≠ "") (w2 : World) (h20 : w2.openErr 0 = none)
    (h2q : w2.queryErr = some e) :
    (DBExists w st0 "postgres" cfg).1 = (false, some DBError.noSuchDatabase) ∧
    (DBExists w st0 "mysql" cfg).1 = (false, some DBError.noSuchDatabase) ∧
    (DBExists w2 st0 "postgres" cfg).1 = (false, some (DBError.probeFailed e)) ∧
    (DBExists w2 st0 "mysql" cfg).1 = (false, some (DBError.probeFailed e)) := by
  refine ⟨?_, ?_, ?_, ?_⟩ <;>
    simp [DBExists, openSession, st0, h0, hq, h20, h2q, hpg, hmy,
      recordQuery, closeSess, Ne.symm hne]

/-- C5 witness: the amended theorem at the empty catalog and a failing query. -/
theorem dbExists_no_row_sentinel_witness :
    (DBExists wAllOk st0 "postgres" cfgApp).1 =
      (false, some DBError.noSuchDatabase) ∧
    (DBExists wAllOk st0 "mysql" cfgApp).1 =
      (false, some DBError.noSuchDatabase) ∧
    (DBExists wProbeBoom st0 "postgres" cfgApp).1 =
      (false, some (DBError.probeFailed "boom")) ∧
    (DBExists wProbeBoom st0 "mysql" cfgApp).1 =
      (false, some (DBError.probeFailed "boom")) :=
  dbExists_no_row_sentinel wAllOk cfgApp "boom" rfl rfl (by decide) (by decide)
    (by decide) wProbeBoom rfl rfl

/-- C6: for any dialect outside `{postgres, mysql}`, all four operations
return `ErrUnknownDialect` (in their respective result shapes) and leave the
driver state untouched: no open, query or exec call is made. -/
theorem unknown_dialect_no_io (w : World) (st : St) (cfg : DBConfig) (b : Bool)
    (dialect : String) (hp : dialect ≠ "postgres") (hm : dialect ≠ "mysql") :
    DBExists w st dialect cfg = ((false, some DBError.unknownDialect), st) ∧
    CreateSession w st dialect cfg b = (Except.error DBError.unknownDialect, st) ∧
    CreateDB w st dialect cfg = (some DBError.unknownDialect, st) ∧
    ConnectDB w st dialect cfg = (Except.error DBError.unknownDialect, st) := by
  refine ⟨?_, ?_, ?_, ?_⟩ <;>
    simp [DBExists, CreateSession, CreateDB, ConnectDB, hp, hm]

/-- C6 witness: the theorem at dialect `sqlite`. -/
theorem unknown_dialect_no_io_witness :
    DBExists wAllOk st0 "sqlite" cfgApp =
      ((false, some DBError.unknownDialect), st0) ∧
    CreateSession wAllOk st0 "sqlite" cfgApp true =
      (Except.error DBError.unknownDialect, st0) ∧
    CreateDB wAllOk st0 "sqlite" cfgApp =
      (some DBError.unknownDialect, st0) ∧
    ConnectDB wAllOk st0 "sqlite" cfgApp =
      (Except.error DBError.unknownDialect, st0) :=
  unknown_dialect_no_io wAllOk st0 cfgApp true "sqlite" (by decide) (by decide)

/-- C7: the DDL `CreateDB` issues is exactly the dialect's idiom: on
Postgres `CREATE DATABASE <name> WITH OWNER <user>` (no IF NOT EXISTS
guard), on MySQL `CREATE DATABASE IF NOT EXISTS <name>` — and it is the
only statement executed, whatever the execution outcome. -/
theorem createDB_ddl_text (w : World) (cfg : DBConfig)
    (h0 : w.openErr 0 = none) :
    execSqls (CreateDB w st0 "postgres" cfg).2.events =
      ["CREATE DATABASE " ++ cfg.database ++ " WITH OWNER " ++ cfg.user] ∧
    execSqls (CreateDB w st0 "mysql" cfg).2.events =
      ["CREATE DATABASE IF NOT EXISTS " ++ cfg.database] := by
  cases he : w.execErr <;>
    simp [CreateDB, CreateSession, openSession, st0, h0, he, recordExec,
      closeSess, execSqls, pgCreateSql, mysqlCreateSql]

/-- C7 witness: the DDL text theorem at the sample configuration. -/
theorem createDB_ddl_text_witness :
    execSqls (CreateDB wAllOk st0 "postgres" cfgApp).2.events =
      ["CREATE DATABASE " ++ cfgApp.database ++ " WITH OWNER " ++ cfgApp.user] ∧
    execSqls (CreateDB wAllOk st0 "mysql" cfgApp).2.events =
      ["CREATE DATABASE IF NOT EXISTS " ++ cfgApp.database] :=
  createDB_ddl_text wAllOk cfgApp rfl

/-- C8: for both supported dialects, `CreateSession` builds settings that
always carry host, user and password, and carry the database name exactly
when the call is scoped (`ignoreDb = false`); the unscoped (bootstrap)
settings leave the database field at the zero value `""`. -/
theorem createSession_scoping (w : World) (cfg : DBConfig) (b : Bool)
    (h0 : w.openErr 0 = none) :
    (CreateSession w st0 "postgres" cfg b).1 =
      Except.ok (mkSess 0 "postgres"
        (mkURL cfg.host cfg.user cfg.password (if b then "" else cfg.database))) ∧
    (CreateSession w st0 "mysql" cfg b).1 =
      Except.ok (mkSess 0 "mysql"
        (mkURL cfg.host cfg.user cfg.password (if b then "" else cfg.database))) := by
  refine ⟨?_, ?_⟩ <;> simp [CreateSession, openSession, st0, h0, mkSess, mkURL]

/-- C8 witness: the scoping theorem at the sample configuration, scoped. -/
theorem createSession_scoping_witness :
    (CreateSession wAllOk st0 "postgres" cfgApp false).1 =
      Except.ok (mkSess 0 "postgres"
        (mkURL cfgApp.host cfgApp.user cfgApp.password
          (if false then "" else cfgApp.database))) ∧
    (CreateSession wAllOk st0 "mysql" cfgApp false).1 =
      Except.ok (mkSess 0 "mysql"
        (mkURL cfgApp.host cfgApp.user cfgApp.password
          (if false then "" else cfgApp.database))) :=
  createSession_scoping wAllOk cfgApp false rfl

end Framework
namespace Framework

/-- C1 counterexample: a run where the target database is absent and every
driver call succeeds: `ConnectDB` succeeds, yet the session it returns is
the bootstrap session itself (open call 0, no database name in its
settings), and the bootstrap session is never closed — no database-scoped
reconnect happens on this branch. -/
theorem connectDB_absent_returns_unscoped_bootstrap :
    (ConnectDB wAllOk st0 "postgres" cfgApp).1 =
      Except.ok (mkSess 0 "postgres" (mkURL "h" "u" "p" "")) ∧
    closeCount (ConnectDB wAllOk st0 "postgres" cfgApp).2.events 0 = 0 := by
  decide

/-- C1 amended: only when the existence probe reports the database present
does `ConnectDB` close the bootstrap session and return a fresh
database-scoped session; when the probe reports it absent (so `CreateDB`
runs), `ConnectDB` returns the bootstrap (unscoped) session itself, without
closing it and without opening a scoped session. -/
theorem connectDB_branch_behavior (w : World) (cfg : DBConfig)
    (h0 : w.openErr 0 = none) (h1 : w.openErr 1 = none)
    (h2 : w.openErr 2 = none) (hq : w.queryErr = none)
    (he : w.execErr = none) :
    (pgScan w.catalog cfg.database = cfg.database →
      (ConnectDB w st0 "postgres" cfg).1 =
        Except.ok (mkSess 2 "postgres"
          (mkURL cfg.host cfg.user cfg.password cfg.database)) ∧
      closeCount (ConnectDB w st0 "postgres" cfg).2.events 0 = 1) ∧
    (pgScan w.catalog cfg.database ≠ cfg.database →
      (ConnectDB w st0 "postgres" cfg).1 =
        Except.ok (mkSess 0 "postgres"
          (mkURL cfg.host cfg.user cfg.password "")) ∧
      closeCount (ConnectDB w st0 "postgres" cfg).2.events 0 = 0) ∧
    (mysqlScan w.catalog cfg.database = cfg.database →
      (ConnectDB w st0 "mysql" cfg).1 =
        Except.ok (mkSess 2 "mysql"
          (mkURL cfg.host cfg.user cfg.password cfg.database)) ∧
      closeCount (ConnectDB w st0 "mysql" cfg).2.events 0 = 1) ∧
    (mysqlScan w.catalog cfg.database ≠ cfg.database →
      (ConnectDB w st0 "mysql" cfg).1 =
        Except.ok (mkSess 0 "mysql"
          (mkURL cfg.host cfg.user cfg.password "")) ∧
      closeCount (ConnectDB w st0 "mysql" cfg).2.events 0 = 0) := by
  refine ⟨fun hs => ?_, fun hs => ?_, fun hs => ?_, fun hs => ?_⟩ <;>
    simp [ConnectDB, DBExists, CreateDB, CreateSession, openSession, st0,
      h0, h1, h2, hq, he, hs, recordQuery, recordExec, closeSess,
      closeCount, mkSess, mkURL]

/-- C1 witness: the amended theorem with catalog `[app]`, exists branch. -/
theorem connectDB_branch_behavior_witness :
    (ConnectDB wCatApp st0 "postgres" cfgApp).1 =
      Except.ok (mkSess 2 "postgres"
        (mkURL cfgApp.host cfgApp.user cfgApp.password cfgApp.database)) ∧
    closeCount (ConnectDB wCatApp st0 "postgres" cfgApp).2.events 0 = 1 :=
  (connectDB_branch_behavior wCatApp cfgApp rfl rfl rfl rfl rfl).1 (by decide)

/-- C2 counterexample: with catalog `[app]` but a failing probe query,
`ConnectDB` does not surface the probe error: `DBExists` reports
`failed to check db existence`, yet `ConnectDB` invokes `CreateDB`
(the CREATE DATABASE exec appears in the trace) and returns success. -/
theorem connectDB_probe_error_not_surfaced :
    (DBExists wProbeBoom st0 "postgres" cfgApp).1 =
      (false, some (DBError.probeFailed "boom")) ∧
    (ConnectDB wProbeBoom st0 "postgres" cfgApp).1 =
      Except.ok (mkSess 0 "postgres" (mkURL "h" "u" "p" "")) ∧
    Event.exec 2 (pgCreateSql cfgApp) ∈
      (ConnectDB wProbeBoom st0 "postgres" cfgApp).2.events := by
  decide

/-- C2 amended: `ConnectDB` discards the probe's error (`exists, _ :=`), so
a query-execution failure in `DBExists` is treated exactly like "database
absent": `CreateDB` is invoked, and when provisioning succeeds `ConnectDB`
returns the bootstrap session successfully, the probe error never surfacing. -/
theorem connectDB_probe_error_treated_as_absent (w : World) (cfg : DBConfig)
    (e : String) (h0 : w.openErr 0 = none) (h1 : w.openErr 1 = none)
    (h2 : w.openErr 2 = none) (hq : w.queryErr = some e)
    (he : w.execErr = none) :
    (ConnectDB w st0 "postgres" cfg).1 =
      Except.ok (mkSess 0 "postgres"
        (mkURL cfg.host cfg.user cfg.password "")) ∧
    Event.exec 2 (pgCreateSql cfg) ∈
      (ConnectDB w st0 "postgres" cfg).2.events ∧
    (ConnectDB w st0 "mysql" cfg).1 =
      Except.ok (mkSess 0 "mysql"
        (mkURL cfg.host cfg.user cfg.password "")) ∧
    Event.exec 2 (mysqlCreateSql cfg) ∈
      (ConnectDB w st0 "mysql" cfg).2.events := by
  refine ⟨?_, ?_, ?_, ?_⟩ <;>
    simp [ConnectDB, DBExists, CreateDB, CreateSession, openSession, st0,
      h0, h1, h2, hq, he, recordQuery, recordExec, closeSess, mkSess, mkURL]

/-- C2 witness: the amended theorem at the failing-probe oracle. -/
theorem connectDB_probe_error_treated_as_absent_witness :
    (ConnectDB wProbeBoom st0 "postgres" cfgApp).1 =
      Except.ok (mkSess 0 "postgres"
        (mkURL cfgApp.host cfgApp.user cfgApp.password "")) ∧
    Event.exec 2 (pgCreateSql cfgApp) ∈
      (ConnectDB wProbeBoom st0 "postgres" cfgApp).2.events ∧
    (ConnectDB wProbeBoom st0 "mysql" cfgApp).1 =
      Except.ok (mkSess 0 "mysql"
        (mkURL cfgApp.host cfgApp.user cfgApp.password "")) ∧
    Event.exec 2 (mysqlCreateSql cfgApp) ∈
      (ConnectDB wProbeBoom st0 "mysql" cfgApp).2.events :=
  connectDB_probe_error_treated_as_absent wProbeBoom cfgApp "boom"
    rfl rfl rfl rfl rfl

/-- C9 counterexample: in a full `ConnectDB` run (catalog `[app]`, all
driver calls succeed) three sessions are opened, and the catalog query runs
on session 1 — a session the probe opened for itself — not on the bootstrap
session 0. -/
theorem dbExists_opens_own_session :
    openedIds (ConnectDB wCatApp st0 "postgres" cfgApp).2.events = [0, 1, 2] ∧
    queryIds (ConnectDB wCatApp st0 "postgres" cfgApp).2.events = [1] := by
  decide

/-- C9 amended: `DBExists` takes no session argument; it opens one session
of its own (for either dialect), runs the catalog query on that session and
closes it.  In an orchestrator run the probe query therefore runs on the
probe's own second session, never on the bootstrap session S1. -/
theorem dbExists_probe_on_own_session (w : World) (cfg : DBConfig)
    (h0 : w.openErr 0 = none) (h1 : w.openErr 1 = none)
    (hq : w.queryErr = none) :
    openedIds (DBExists w st0 "postgres" cfg).2.events = [0] ∧
    queryIds (DBExists w st0 "postgres" cfg).2.events = [0] ∧
    closeCount (DBExists w st0 "postgres" cfg).2.events 0 = 1 ∧
    openedIds (DBExists w st0 "mysql" cfg).2.events = [0] ∧
    queryIds (DBExists w st0 "mysql" cfg).2.events = [0] ∧
    queryIds (ConnectDB w st0 "postgres" cfg).2.events = [1] ∧
    queryIds (ConnectDB w st0 "mysql" cfg).2.events = [1] := by
  refine ⟨?_, ?_, ?_, ?_, ?_, ?_, ?_⟩ <;>
  · by_cases hp : pgScan w.catalog cfg.database = cfg.database <;>
    by_cases hm : mysqlScan w.catalog cfg.database = cfg.database <;>
    cases h2 : w.openErr 2 <;> cases he : w.execErr <;>
    simp [ConnectDB, DBExists, CreateDB, CreateSession, openSession, st0,
      h0, h1, h2, hq, he, hp, hm, recordQuery, recordExec, closeSess,
      openedIds, queryIds, closeCount]

/-- C9 witness: the amended theorem at the catalog-`[app]` oracle. -/
theorem dbExists_probe_on_own_session_witness :
    openedIds (DBExists wCatApp st0 "postgres" cfgApp).2.events = [0] ∧
    queryIds (DBExists wCatApp st0 "postgres" cfgApp).2.events = [0] ∧
    closeCount (DBExists wCatApp st0 "postgres" cfgApp).2.events 0 = 1 ∧
    openedIds (DBExists wCatApp st0 "mysql" cfgApp).2.events = [0] ∧
    queryIds (DBExists wCatApp st0 "mysql" cfgApp).2.events = [0] ∧
    queryIds (ConnectDB wCatApp st0 "postgres" cfgApp).2.events = [1] ∧
    queryIds (ConnectDB wCatApp st0 "mysql" cfgApp).2.events = [1] :=
  dbExists_probe_on_own_session wCatApp cfgApp rfl rfl rfl

end Framework
namespace Framework

/-- Oracle where every attempt to open a session fails. -/
def wOpenFail : World :=
  { openErr := fun _ => some "down", queryErr := none, catalog := [],
    execErr := none }

/-- The id of the session a `ConnectDB` result hands to the caller, if any. -/
def returnedId : Except DBError Session → Option Nat
  | Except.ok s => some s.id
  | Except.error _ => none

/-- Close discipline over a finished run: every opened session is closed
exactly once, except the session returned to the caller, and except the
bootstrap session (open call 0) when the run ended in an error. -/
def closeDiscipline (res : Except DBError Session) (evs : List Event) : Bool :=
  (openedIds evs).all (fun i =>
    closeCount evs i == 1 || returnedId res == some i ||
      (i == 0 && (returnedId res).isNone))

/-- Hygiene of a probe run: every opened session is closed exactly once,
and only opened sessions are ever closed. -/
def sessionHygiene (evs : List Event) : Bool :=
  (openedIds evs).all (fun i => closeCount evs i == 1) &&
  (closedIds evs).all (fun i => (openedIds evs).contains i)

/-- C3 counterexample: when the database is absent and `CREATE DATABASE`
fails, `ConnectDB` returns the provisioning error but never closes the
bootstrap session it opened — the bootstrap session is leaked. -/
theorem connectDB_leaks_bootstrap_on_provision_failure :
    (ConnectDB wExecDup st0 "postgres" cfgApp).1 =
      Except.error (DBError.execError "dup") ∧
    0 ∈ openedIds (ConnectDB wExecDup st0 "postgres" cfgApp).2.events ∧
    closeCount (ConnectDB wExecDup st0 "postgres" cfgApp).2.events 0 = 0 := by
  decide

/-- C3 amended: on every exit path of `ConnectDB`, every session opened
during the invocation is closed exactly once before return, except the
session returned to the caller on success and except the bootstrap session,
which is left open (leaked) when `ConnectDB` returns an error after
entering the provisioning branch. -/
theorem connectDB_close_discipline (w : World) (cfg : DBConfig)
    (dialect : String) :
    closeDiscipline (ConnectDB w st0 dialect cfg).1
      (ConnectDB w st0 dialect cfg).2.events = true := by
  by_cases dp : dialect = "postgres"
  · subst dp
    cases h0 : w.openErr 0 <;> cases h1 : w.openErr 1 <;>
      cases hq : w.queryErr <;> cases h2 : w.openErr 2 <;>
      cases he : w.execErr <;>
      by_cases hs : pgScan w.catalog cfg.database = cfg.database <;>
      simp [ConnectDB, DBExists, CreateDB, CreateSession, openSession, st0,
        h0, h1, hq, h2, he, hs, recordQuery, recordExec, closeSess,
        closeDiscipline, openedIds, closeCount, returnedId]
  · by_cases dm : dialect = "mysql"
    · subst dm
      cases h0 : w.openErr 0 <;> cases h1 : w.openErr 1 <;>
        cases hq : w.queryErr <;> cases h2 : w.openErr 2 <;>
        cases he : w.execErr <;>
        by_cases hs : mysqlScan w.catalog cfg.database = cfg.database <;>
        simp [ConnectDB, DBExists, CreateDB, CreateSession, openSession, st0,
          h0, h1, hq, h2, he, hs, recordQuery, recordExec, closeSess,
          closeDiscipline, openedIds, closeCount, returnedId]
    · simp [ConnectDB, CreateSession, dp, dm, closeDiscipline, openedIds, st0]

/-- C10: every session `DBExists` itself successfully opens is closed
exactly once on every exit path, only opened sessions are closed, and when
the open itself fails no session exists and no close is attempted (the
trace stays empty). -/
theorem dbExists_session_hygiene (w : World) (cfg : DBConfig)
    (dialect : String) :
    sessionHygiene (DBExists w st0 dialect cfg).2.events = true ∧
    (∀ e, w.openErr 0 = some e → (DBExists w st0 dialect cfg).2.events = []) := by
  by_cases dp : dialect = "postgres"
  · subst dp
    refine ⟨?_, fun e he => ?_⟩ <;>
      cases h0 : w.openErr 0 <;> cases hq : w.queryErr <;>
      by_cases hs : pgScan w.catalog cfg.database = cfg.database <;>
      simp_all [DBExists, openSession, st0, recordQuery, closeSess,
        sessionHygiene, openedIds, closedIds, closeCount]
  · by_cases dm : dialect = "mysql"
    · subst dm
      refine ⟨?_, fun e he => ?_⟩ <;>
        cases h0 : w.openErr 0 <;> cases hq : w.queryErr <;>
        by_cases hs : mysqlScan w.catalog cfg.database = cfg.database <;>
        simp_all [DBExists, openSession, st0, recordQuery, closeSess,
          sessionHygiene, openedIds, closedIds, closeCount]
    · refine ⟨?_, fun e he => ?_⟩ <;>
        simp [DBExists, dp, dm, sessionHygiene, openedIds, closedIds, st0]

/-- C10 witness: hygiene at a succeeding probe and at a failed open. -/
theorem dbExists_session_hygiene_witness :
    sessionHygiene (DBExists wCatApp st0 "postgres" cfgApp).2.events = true ∧
    (DBExists wOpenFail st0 "postgres" cfgApp).2.events = [] :=
  ⟨(dbExists_session_hygiene wCatApp cfgApp "postgres").1,
   (dbExists_session_hygiene wOpenFail cfgApp "postgres").2 "down" rfl⟩

end Framework
